import Mathlib

/-!
Verification model of the caddyunmarshal decoder (src/caddyunmarshal.go).

The Go program decodes a Caddyfile token stream into a struct value driven
by per-field `caddyfile:"..."` tags.  This file gives a shallow embedding:

* `Ty` / `StructField` model the reflected record types the decoder walks
  (only the type shapes exercised by the claims: string, int, bool,
  `map[string]string`, `caddy.ModuleMap`, and nested structs).
* `Val` models reflected values; mutation through `reflect.Value` becomes
  explicit value threading (`Val.setField`, `Val.mapSet`).
* `Item` models the external dispenser's view of the token stream at one
  nesting level: a sequence of same-level argument tokens and blocks, a
  block being a list of lines, each line a head token plus the rest of the
  line (its own arguments and sub-blocks).  The tokenizer itself is an
  external collaborator of the program; it is modelled at the interface
  the decoder consumes (NextArg / NextBlock / Val / CountRemainingArgs /
  NextSegment).
* `extractFields`, `unmarshal`, `unmarshalBlock`, `parseLine`,
  `unmarshalValue` are translated from the like-named Go functions,
  including their quirks (the `{N}` branch appending to `blockFields`,
  the sort applied to `blockFields`, block-body errors dropped by
  `return nil`, name lookup via the Go field name).
* Go panics (reflect.Value.NumField on a non-struct) are modelled as a
  distinguished error that bypasses error-wrapping, mirroring unwinding.
* The mutually recursive walk is driven by an explicit fuel parameter so
  every definition reduces by `rfl`/`decide`; the public entry point
  supplies fuel strictly larger than the input size, so the sentinel
  `Err.fuelExhausted` is unreachable on any actual input.
-/

namespace Caddyunmarshal

/-- Left brace character, written via its code point. -/
def lbrace : Char := Char.ofNat 123

/-- Right brace character, written via its code point. -/
def rbrace : Char := Char.ofNat 125

/-- Model of `strings.Split(tag, ",")` on the character list. -/
def splitCommaChars : List Char → List Char → List String
  | [], acc => [String.mk acc.reverse]
  | c :: cs, acc =>
      if c = ',' then String.mk acc.reverse :: splitCommaChars cs []
      else splitCommaChars cs (c :: acc)

/-- Model of `strings.Split(tag, ",")`. -/
def splitComma (s : String) : List String := splitCommaChars s.data []

/-- Digits of a decimal string, as a natural number accumulator. -/
def digitsToNat : List Char → Nat → Nat
  | [], acc => acc
  | c :: cs, acc => digitsToNat cs (acc * 10 + (c.toNat - 48))

/-- Model of `strconv.Atoi` / `strconv.ParseInt(raw, 10, 64)`: optional
sign, one or more decimal digits, 64-bit signed range. -/
def goAtoiChars (cs : List Char) : Option Int :=
  match cs with
  | [] => none
  | c :: rest =>
      let (neg, digits) :=
        if c = '-' then (true, rest)
        else if c = '+' then (false, rest)
        else (false, cs)
      if digits.isEmpty then none
      else if digits.all (·.isDigit) then
        let n := digitsToNat digits 0
        if neg then
          if n ≤ 9223372036854775808 then some (-(n : Int)) else none
        else
          if n ≤ 9223372036854775807 then some (n : Int) else none
      else none

/-- Model of `strconv.Atoi` on a `String`. -/
def goAtoi (s : String) : Option Int := goAtoiChars s.data

/-- Model of `strconv.ParseBool`. -/
def goParseBool (s : String) : Option Bool :=
  if s = "1" ∨ s = "t" ∨ s = "T" ∨ s = "TRUE" ∨ s = "true" ∨ s = "True" then
    some true
  else if s = "0" ∨ s = "f" ∨ s = "F" ∨ s = "FALSE" ∨ s = "false" ∨ s = "False" then
    some false
  else none

/-- Model of the regexp `blockIxRe = ^\x7b(\d+)\x7d$`: returns the digit
characters of the capture group when the name matches. -/
def blockIxDigits (s : String) : Option (List Char) :=
  match s.data with
  | c :: rest =>
      if c = lbrace then
        match rest.reverse with
        | d :: mid =>
            if d = rbrace then
              let digits := mid.reverse
              if digits.isEmpty then none
              else if digits.all (·.isDigit) then some digits else none
            else none
        | [] => none
      else none
  | [] => none

mutual
/-- Model of the reflected Go types the decoder distinguishes.
`caddy.ModuleMap` appears only as a matcher field's type in the claims;
its decode paths are never reached (the matcher type check fails first). -/
inductive Ty : Type where
  | str : Ty
  | int : Ty
  | bool : Ty
  | mapStrStr : Ty
  | moduleMap : Ty
  | struct : List StructField → Ty

/-- Model of `reflect.StructField` as the program reads it: Go field
name, the `caddyfile` tag string, exportedness, and the field type. -/
inductive StructField : Type where
  | mk : String → String → Bool → Ty → StructField
end

/-- Go field name of a struct field. -/
def StructField.name : StructField → String
  | .mk n _ _ _ => n

/-- The `caddyfile` tag string of a struct field (empty when absent). -/
def StructField.tag : StructField → String
  | .mk _ t _ _ => t

/-- Whether the field is exported (`f.IsExported()`). -/
def StructField.exported : StructField → Bool
  | .mk _ _ e _ => e

/-- Declared type of the field. -/
def StructField.ty : StructField → Ty
  | .mk _ _ _ t => t

/-- Model of reflected values.  A struct value is the list of its field
values in declaration order; a map value is its entry list. -/
inductive Val : Type where
  | str : String → Val
  | int : Int → Val
  | bool : Bool → Val
  | mapStrStr : List (String × String) → Val
  | moduleMap : Val
  | struct : List Val → Val

/-- Read field `i` of a struct value (`r.v.Field(i)`). -/
def Val.getField : Val → Nat → Val
  | .struct vs, i => vs.getD i (.str "")
  | v, _ => v

/-- Write field `i` of a struct value (assignment through the
`reflect.Value` obtained from `r.v.Field(i)`). -/
def Val.setField : Val → Nat → Val → Val
  | .struct vs, i, nv => .struct (vs.set i nv)
  | v, _, _ => v

/-- Model of `r.v.SetMapIndex(key, val)` for a string map: replace the
binding of `k` if present, else append it. -/
def mapSetEntries (k v : String) : List (String × String) → List (String × String)
  | [] => [(k, v)]
  | (k1, v1) :: rest =>
      if k1 = k then (k, v) :: rest else (k1, v1) :: mapSetEntries k v rest

/-- Apply `mapSetEntries` to a map value. -/
def Val.mapSet : Val → String → String → Val
  | .mapStrStr es, k, v => .mapStrStr (mapSetEntries k v es)
  | v, _, _ => v

/-- Extract the string payload of a string value. -/
def Val.asString : Val → String
  | .str s => s
  | _ => ""

/-- Errors of the decode pipeline.  Each constructor corresponds to one
`fmt.Errorf` site in the source; `wrapped` is the dispenser's `WrapErr`
position annotation; `panicNumField` models the Go runtime panic raised
by `reflect.Value.NumField` on a non-struct value, which unwinds through
every error-wrapping site untouched; `fuelExhausted` is the fuel
sentinel, unreachable from the public entry points. -/
inductive Err : Type where
  | fuelExhausted : Err
  | cannotExtract : Err → Err
  | matcherNotHTTP : Err
  | matcherNotModuleMap : Err
  | wrapped : Err → Err
  | unexpectedArgument : Nat → String → Err
  | errorAt : Nat → Err → Err
  | unexpectedBlock : Nat → String → Err
  | missingRequired : Nat → Err
  | expectedStructOrMap : Err
  | mapKeyError : String → Err → Err
  | unexpectedBlockArgument : String → Err
  | errorAtName : String → Err → Err
  | cannotParseInt : String → Err
  | cannotParseBool : String → Err
  | unsupportedType : Ty → Err
  | invalidBlockIndex : String → Err
  | invalidArgumentIndex : String → Err
  | nonOptionalAfterOptional : Nat → Err
  | duplicateIndex : Int → Err
  | panicNumField : Err

/-- Whether the error models a Go panic (propagates without wrapping). -/
def Err.isPanic : Err → Bool
  | .panicNumField => true
  | _ => false

/-- Wrap an error value the way the Go call sites do, letting a modelled
panic pass through unwrapped (a panic is not an `error` value in Go). -/
def wrapNonPanic (f : Err → Err) (e : Err) : Err :=
  if e.isPanic then e else f e

/-- Model of the `fieldKind` interface and its implementations. -/
inductive FieldKindM : Type where
  | blockFieldKind : String → FieldKindM
  | blockKind : Int → Bool → FieldKindM
  | argumentKind : Int → Bool → FieldKindM
  | matcherKind : FieldKindM

/-- Model of `fieldInfo`: the Go field name, the field's position inside
its struct (standing in for the `reflect.Value` reference), its type and
its kind. -/
structure FieldInfoM : Type where
  fname : String
  idx : Nat
  ty : Ty
  kind : FieldKindM

/-- Translation of `fieldInfo.optional`. -/
def FieldInfoM.optional (f : FieldInfoM) : Bool :=
  match f.kind with
  | .blockKind _ o => o
  | .argumentKind _ o => o
  | _ => true

/-- Translation of `fieldInfo.index`. -/
def FieldInfoM.index (f : FieldInfoM) : Int :=
  match f.kind with
  | .blockKind ix _ => ix
  | .argumentKind ix _ => ix
  | _ => -1

/-- Model of `structInfo`. -/
structure StructInfoM : Type where
  blockFields : List FieldInfoM
  otherFields : List FieldInfoM
  matcher : Option FieldInfoM

/-- Translation of `structInfo.blockFieldNamed`: note the source compares
the Go field name `field.field.Name`, not the name stored in the kind. -/
def StructInfoM.blockFieldNamed (s : StructInfoM) (name : String) : Option FieldInfoM :=
  s.blockFields.find? (fun f => f.fname == name)

/-- Translation of `structInfo.otherFieldAt`. -/
def StructInfoM.otherFieldAt (s : StructInfoM) (ix : Nat) : Option FieldInfoM :=
  s.otherFields.get? ix

/-- Translation of `hasOpt`. -/
def hasOpt (parts : List String) (opt : String) : Bool :=
  parts.any (fun p => p == opt)

/-- Model of `strings.HasPrefix(name, "$")` on the character list. -/
def dollarName (s : String) : Bool :=
  match s.data with
  | c :: _ => c = '$'
  | [] => false

/-- Model of `strings.TrimPrefix(name, "$")` at the call site where the
`$` prefix is known to be present: drop the leading character. -/
def trimDollar (s : String) : String :=
  match s.data with
  | _ :: cs => String.mk cs
  | [] => ""

/-- First comma-separated component of a tag: `parts[0]` after
`parts := strings.Split(tag, ",")`. -/
def tagName (tag : String) : String :=
  (splitComma tag).headD ""

/-- The `hasOpt(parts[1:], "optional")` test on a tag. -/
def tagOptional (tag : String) : Bool :=
  hasOpt (splitComma tag).tail "optional"

/-- Classification of one struct field inside the `extractFields` loop,
translated branch for branch from the tag switch.  The `blockIxRe`
branch reproduces the source's `info.otherFields = append(info.blockFields, ...)`
assignment verbatim. -/
def classifyOne (f : StructField) (i : Nat) (info : StructInfoM) : Except Err StructInfoM :=
  if !f.exported then .ok info
  else if f.tag == "" then
    .ok { info with blockFields :=
            info.blockFields ++ [⟨f.name, i, f.ty, .blockFieldKind f.name⟩] }
  else if tagName f.tag == "-" then .ok info
  else if tagName f.tag == "$matcher" then
    .ok { info with matcher := some ⟨f.name, i, f.ty, .matcherKind⟩ }
  else
    match blockIxDigits (tagName f.tag) with
    | some ds =>
        match goAtoiChars ds with
        | none => .error (.invalidBlockIndex (tagName f.tag))
        | some ix =>
            .ok { info with otherFields :=
                    info.blockFields ++
                      [⟨f.name, i, f.ty, .blockKind ix (tagOptional f.tag)⟩] }
    | none =>
        if dollarName (tagName f.tag) then
          match goAtoi (trimDollar (tagName f.tag)) with
          | none => .error (.invalidArgumentIndex (tagName f.tag))
          | some ix =>
              .ok { info with otherFields :=
                      info.otherFields ++
                        [⟨f.name, i, f.ty, .argumentKind ix (tagOptional f.tag)⟩] }
        else
          .ok { info with blockFields :=
                  info.blockFields ++ [⟨f.name, i, f.ty, .blockFieldKind (tagName f.tag)⟩] }

/-- The field-scanning loop of `extractFields`. -/
def classifyFields : List StructField → Nat → StructInfoM → Except Err StructInfoM
  | [], _, info => .ok info
  | f :: fs, i, info =>
      match classifyOne f i info with
      | .error e => .error e
      | .ok info1 => classifyFields fs (i + 1) info1

/-- Insertion step of the sort-by-index. -/
def insertByIndex (f : FieldInfoM) : List FieldInfoM → List FieldInfoM
  | [] => [f]
  | g :: gs => if f.index < g.index then f :: g :: gs else g :: insertByIndex f gs

/-- Model of `sort.Slice(..., func(i, j) { return ...index() < ...index() })`
as a stable insertion sort: elements are inserted left to right, each
after the existing entries whose index is not greater, so equal keys keep
their relative order (on the short lists the source produces, Go's sort
leaves all-equal keys in place as well).  The source applies this to
`info.blockFields`, whose entries all have index `-1`. -/
def sortByIndex (l : List FieldInfoM) : List FieldInfoM :=
  l.foldl (fun acc f => insertByIndex f acc) []

/-- Translation of the optional-suffix validation loop (source lines
481-494): fails when a non-optional entry follows an optional one, citing
the loop position. -/
def optionalSuffixCheck : List FieldInfoM → Nat → Bool → Option Err
  | [], _, _ => none
  | f :: fs, i, foundOptional =>
      if foundOptional && !f.optional then some (.nonOptionalAfterOptional i)
      else optionalSuffixCheck fs (i + 1) (foundOptional || f.optional)

/-- Translation of the duplicate-index validation loop (source lines
496-508), with the `usedIndices` set as a list. -/
def duplicateCheck : List FieldInfoM → List Int → Option Err
  | [], _ => none
  | f :: fs, used =>
      if used.contains f.index then some (.duplicateIndex f.index)
      else duplicateCheck fs (f.index :: used)

/-- The `info` value after the sort statement of `extractFields` (source
line 477): the accumulated schema with its `blockFields` sorted by index
— the source sorts `blockFields`, not `otherFields`. -/
def sortedInfo (info0 : StructInfoM) : StructInfoM :=
  { info0 with blockFields := sortByIndex info0.blockFields }

/-- Translation of `extractFields`.  It takes the declared field list of
a struct type; the caller is responsible for the struct-kind check (Go
panics inside `NumField` otherwise, handled at the call sites). -/
def extractFields (fields : List StructField) : Except Err StructInfoM :=
  match classifyFields fields 0 ⟨[], [], none⟩ with
  | .error e => .error e
  | .ok info0 =>
      match optionalSuffixCheck (sortedInfo info0).otherFields 0 false with
      | some e => .error e
      | none =>
          match duplicateCheck (sortedInfo info0).otherFields [] with
          | some e => .error e
          | none => .ok (sortedInfo info0)

/-- Model of the external dispenser's view of the token stream at one
nesting level, at the interface the decoder consumes: a sequence of
same-level argument tokens (`NextArg`) and blocks (`NextBlock`).  A block
is a list of lines; a line is its head token (the value the cursor shows
on entering the line) together with the rest of the line: further
argument tokens and sub-blocks. -/
inductive Item : Type where
  | arg : String → Item
  | block : List (String × List Item) → Item

/-- Model of `d.CountRemainingArgs()` on the remainder of a block line:
the number of argument tokens before the next block or line end. -/
def countRemainingArgs (items : List Item) : Nat :=
  (items.takeWhile fun it => match it with | .arg _ => true | _ => false).length

/-- The token `d.Val()` shows after entering a block: the head of its
first line (empty for the degenerate empty block, which the dispenser
never yields). -/
def firstLineHead (lines : List (String × List Item)) : String :=
  match lines with
  | [] => ""
  | (n, _) :: _ => n

/-- Translation of `unmarshalValue` for the modelled types.  None of the
modelled types implements `caddyfile.Unmarshaler`, so the custom-decoder
delegation at the top of the source function never fires here; the
primitive-kind switch and the final unsupported-type error are translated
directly.  The domain types of the source's identity registry (addresses,
durations) are outside the claims and not modelled. -/
def unmarshalValue (ty : Ty) (raw : String) : Except Err Val :=
  match ty with
  | .str => .ok (.str raw)
  | .int =>
      match goAtoi raw with
      | some i => .ok (.int i)
      | none => .error (.wrapped (.cannotParseInt raw))
  | .bool =>
      match goParseBool raw with
      | some b => .ok (.bool b)
      | none => .error (.wrapped (.cannotParseBool raw))
  | ty => .error (.unsupportedType ty)

/-- Empty `structInfo`, the zero value used on the map path of
`unmarshalBlock`. -/
def emptyStructInfo : StructInfoM := ⟨[], [], none⟩

/-- Translation of the final loop of `unmarshal` (source lines 137-144):
scan the not-yet-visited other fields; the first non-optional one yields
the wrapped missing-required error at its walk position. -/
def missingCheck : List FieldInfoM → Nat → Option Err
  | [], _ => none
  | f :: fs, pos =>
      if !f.optional then some (.wrapped (.missingRequired pos))
      else missingCheck fs (pos + 1)

mutual

/-- Translation of `unmarshal` (the walk over one argument/block
sequence).  The first parameter is recursion fuel; the public wrapper
supplies more fuel than any input can consume.  The `http` flag models
whether the dispenser carries an `httpcaddyfile.Helper` (that is, whether
`UnmarshalForHTTP` was the entry point).  A non-struct target makes the
source call `reflect.Value.NumField` inside `extractFields`, a runtime
panic, modelled as `Err.panicNumField`. -/
def unmarshalFuel : Nat → Bool → Ty → Val → List Item → Val × Option Err
  | 0, _, _, v, _ => (v, some .fuelExhausted)
  | fuel + 1, http, ty, v, items =>
      match ty with
      | .struct fields =>
          match extractFields fields with
          | .error e => (v, some (.cannotExtract e))
          | .ok info =>
              if info.matcher.isSome then
                if http = false then (v, some .matcherNotHTTP)
                else
                  -- `r.t` is a struct type here, never assignable to
                  -- `caddy.ModuleMap` (a map type), so the check at
                  -- source line 77 always fails.
                  (v, some .matcherNotModuleMap)
              else loopFuel fuel http fields info v false 0 items
      | _ => (v, some .panicNumField)

/-- Translation of the main `for` loop of `unmarshal` (source lines
92-135), with the walk position `i` and the `hadBlock` flag threaded
explicitly. -/
def loopFuel : Nat → Bool → List StructField → StructInfoM → Val → Bool → Nat →
    List Item → Val × Option Err
  | 0, _, _, _, r, _, _, _ => (r, some .fuelExhausted)
  | fuel + 1, http, fields, info, r, hadBlock, i, items =>
      match items with
      | [] => (r, missingCheck (info.otherFields.drop i) i)
      | .arg tok :: rest =>
          match info.otherFieldAt i with
          | none => (r, some (.wrapped (.unexpectedArgument i tok)))
          | some field =>
              match unmarshalValue field.ty tok with
              | .error e => (r, some (.errorAt i e))
              | .ok nv =>
                  loopFuel fuel http fields info (r.setField field.idx nv) hadBlock (i + 1) rest
      | .block lines :: rest =>
          match info.otherFieldAt i with
          | some field =>
              match unmarshalBlockFuel fuel http field.ty (r.getField field.idx) lines with
              | (fv, some e) => (r.setField field.idx fv, some (wrapNonPanic (.errorAt i) e))
              | (fv, none) =>
                  loopFuel fuel http fields info (r.setField field.idx fv) hadBlock (i + 1) rest
          | none =>
              if hadBlock then (r, some (.wrapped (.unexpectedBlock i (firstLineHead lines))))
              else
                match unmarshalBlockFuel fuel http (.struct fields) r lines with
                | (r1, some e) => (r1, some (wrapNonPanic (.errorAt i) e))
                | (r1, none) => loopFuel fuel http fields info r1 true (i + 1) rest

/-- Translation of `unmarshalBlock` entry (source lines 149-165): decide
between the struct and map shapes, then run the line loop. -/
def unmarshalBlockFuel : Nat → Bool → Ty → Val → List (String × List Item) →
    Val × Option Err
  | 0, _, _, v, _ => (v, some .fuelExhausted)
  | fuel + 1, http, ty, v, lines =>
      match ty with
      | .struct fields =>
          match extractFields fields with
          | .error e => (v, some (.cannotExtract e))
          | .ok info => blockLoopFuel fuel http false info (.struct fields) v lines
      | .mapStrStr => blockLoopFuel fuel http true emptyStructInfo .mapStrStr v lines
      | _ => (v, some .expectedStructOrMap)

/-- Translation of the line loop of `unmarshalBlock` (source lines
215-223).  The source reads `if err := parse(); err != nil { return nil }`:
an error value from a line aborts the loop and is replaced by a nil
return.  Only a modelled panic escapes, since a Go panic is not an error
value. -/
def blockLoopFuel : Nat → Bool → Bool → StructInfoM → Ty → Val →
    List (String × List Item) → Val × Option Err
  | 0, _, _, _, _, v, _ => (v, some .fuelExhausted)
  | fuel + 1, http, isMap, info, ty, v, lines =>
      match lines with
      | [] => (v, none)
      | line :: rest =>
          match parseLineFuel fuel http isMap info ty v line with
          | (v1, some e) => if e.isPanic then (v1, some e) else (v1, none)
          | (v1, none) => blockLoopFuel fuel http isMap info ty v1 rest

/-- Translation of the `parse` closure inside `unmarshalBlock` (source
lines 167-213) for one block line.  On the map path the modelled map type
is `map[string]string`, so the key coercion targets `string` and the
fresh value slot is a `string` (whose kind is not `Bool`); the deferred
`SetMapIndex` runs on every exit after its registration, including panic
unwinding, so the entry is committed before the error is propagated.  On
the struct path the name lookup is by Go field name (`blockFieldNamed`),
an unknown name skips the line (`NextSegment`), a boolean field with
trailing arguments is a wrapped error, and any other field delegates the
rest of the line to `unmarshal`. -/
def parseLineFuel : Nat → Bool → Bool → StructInfoM → Ty → Val →
    String × List Item → Val × Option Err
  | 0, _, _, _, _, v, _ => (v, some .fuelExhausted)
  | fuel + 1, http, isMap, info, _ty, v, (name, rest) =>
      if isMap then
        match unmarshalValue .str name with
        | .error e => (v, some (.mapKeyError name e))
        | .ok _ =>
            match unmarshalFuel fuel http .str (.str "") rest with
            | (slot, e?) =>
                let v1 := v.mapSet name slot.asString
                match e? with
                | some e => (v1, some (wrapNonPanic (.errorAtName name) e))
                | none => (v1, none)
      else
        match info.blockFieldNamed name with
        | none => (v, none)
        | some field =>
            match field.ty with
            | .bool =>
                if countRemainingArgs rest > 0 then
                  (v, some (.wrapped (.unexpectedBlockArgument name)))
                else (v.setField field.idx (.bool true), none)
            | fty =>
                match unmarshalFuel fuel http fty (v.getField field.idx) rest with
                | (fv, some e) =>
                    (v.setField field.idx fv, some (wrapNonPanic (.errorAtName name) e))
                | (fv, none) => (v.setField field.idx fv, none)

end

mutual

/-- Size of one stream item, for the fuel bound. -/
def itemSize : Item → Nat
  | .arg _ => 1
  | .block lines => 1 + linesSize lines

/-- Size of a block's line list, for the fuel bound. -/
def linesSize : List (String × List Item) → Nat
  | [] => 1
  | (_, rest) :: tail => 1 + itemsSize rest + linesSize tail

/-- Size of an item list, for the fuel bound. -/
def itemsSize : List Item → Nat
  | [] => 1
  | it :: rest => 1 + itemSize it + itemsSize rest

end

/-- Fuel bound for a decode call: strictly more than the input size, so
the fuel sentinel is unreachable (each recursive call consumes one unit
and descends into a structurally smaller input). -/
def fuelFor (items : List Item) : Nat := itemsSize items + 1

/-- Translation of the `Unmarshal` / `UnmarshalForHTTP` entry points down
to the inner `unmarshal` call: `http` records which entry point was used
(whether the dispenser carries the `httpcaddyfile.Helper`). -/
def unmarshal (http : Bool) (ty : Ty) (v : Val) (items : List Item) : Val × Option Err :=
  unmarshalFuel (fuelFor items) http ty v items

/-- Whether a struct field is declared as a matcher field: exported, with
a non-empty tag whose first comma-separated component is `$matcher` —
exactly the condition under which the tag switch in `extractFields` takes
the matcher branch. -/
def isMatcherField (f : StructField) : Bool :=
  f.exported && !(f.tag == "") && (tagName f.tag == "$matcher")

/-- Whether an extraction result is a success. -/
def exceptOk (e : Except Err StructInfoM) : Bool :=
  match e with
  | .ok _ => true
  | .error _ => false

/-- One classification step keeps an already-recorded matcher field and
records one when the field at hand is declared `$matcher`. -/
theorem classifyOne_matcher {f : StructField} {i : Nat} {info info1 : StructInfoM}
    (h : classifyOne f i info = Except.ok info1)
    (hm : info.matcher.isSome = true ∨ isMatcherField f = true) :
    info1.matcher.isSome = true := by
  unfold classifyOne at h
  unfold isMatcherField at hm
  split at h
  · cases h; simp_all
  · split at h
    · cases h; simp_all
    · split at h
      · cases h; simp_all
      · split at h
        · cases h; simp
        · split at h
          · split at h
            · cases h
            · cases h; simp_all
          · split at h
            · split at h
              · cases h
              · cases h; simp_all
            · cases h; simp_all

/-- The field-scanning loop records a matcher field whenever the
accumulator already has one or some remaining field declares one. -/
theorem classifyFields_matcher :
    ∀ (fs : List StructField) (n : Nat) (info info1 : StructInfoM),
      classifyFields fs n info = Except.ok info1 →
      (info.matcher.isSome = true ∨ fs.any isMatcherField = true) →
      info1.matcher.isSome = true
  | [], _, _, _, h, hm => by
      unfold classifyFields at h
      cases h
      rcases hm with hl | hr
      · exact hl
      · simp at hr
  | f :: fs, n, info, info1, h, hm => by
      unfold classifyFields at h
      cases hc : classifyOne f n info with
      | error e => rw [hc] at h; cases h
      | ok info2 =>
          rw [hc] at h
          have hm2 : info2.matcher.isSome = true ∨ fs.any isMatcherField = true := by
            rcases hm with hl | hr
            · exact Or.inl (classifyOne_matcher hc (Or.inl hl))
            · simp only [List.any_cons, Bool.or_eq_true] at hr
              rcases hr with hf | hfs
              · exact Or.inl (classifyOne_matcher hc (Or.inr hf))
              · exact Or.inr hfs
          exact classifyFields_matcher fs (n + 1) info2 info1 h hm2

/-- A successful `extractFields` run on a field list declaring a
`$matcher` field yields a schema whose matcher slot is filled. -/
theorem extractFields_matcher {fields : List StructField} {info : StructInfoM}
    (h : extractFields fields = Except.ok info)
    (hm : fields.any isMatcherField = true) :
    info.matcher.isSome = true := by
  unfold extractFields at h
  split at h
  · cases h
  next info0 heq =>
    have h0 : info0.matcher.isSome = true :=
      classifyFields_matcher fields 0 ⟨[], [], none⟩ info0 heq (Or.inr hm)
    split at h
    · cases h
    · split at h
      · cases h
      · cases h
        simpa [sortedInfo] using h0

/-! Concrete record shapes, taken from the test types of the repository
(`thing1`, `thing2`, `thing3` in the test file) and from minimal shapes
exercising single schema rules.  Brace characters in tag strings are
written with their escapes. -/

/-- Field list of the `thing1` test type: `$1`, `$3,optional`, a map at
brace-index 2 and an optional map at brace-index 4. -/
def thing1Fields : List StructField := [
  .mk "Arg1" "$1" true .str,
  .mk "Arg2" "$3,optional" true .str,
  .mk "Junk1" "\x7b2\x7d" true .mapStrStr,
  .mk "Junk2" "\x7b4\x7d,optional" true .mapStrStr]

/-- Zero value of `thing1`. -/
def thing1Zero : Val := .struct [.str "", .str "", .mapStrStr [], .mapStrStr []]

/-- The token stream of scenario A after the directive name:
`arg1 ... arg2 ...` with the two brace-delimited bodies. -/
def scenarioA : List Item := [
  .arg "arg1",
  .block [("foo", [.arg "bar"]), ("baz", [.arg "qux"])],
  .arg "arg2",
  .block [("foo", [.arg "bar"]), ("baz", [.arg "qux"])]]

/-- Field list of the `thing2` test type. -/
def thing2Fields : List StructField := [
  .mk "Arg1" "$1" true .str,
  .mk "Arg2" "$2,optional" true .str,
  .mk "Param" "parameter" true .str,
  .mk "Number" "" true .int,
  .mk "Flag" "" true .bool]

/-- Zero value of `thing2`. -/
def thing2Zero : Val := .struct [.str "", .str "", .str "", .int 0, .bool false]

/-- Schema extracted from `thing2`. -/
def thing2Info : StructInfoM :=
  ⟨[⟨"Param", 2, .str, .blockFieldKind "parameter"⟩,
    ⟨"Number", 3, .int, .blockFieldKind "Number"⟩,
    ⟨"Flag", 4, .bool, .blockFieldKind "Flag"⟩],
   [⟨"Arg1", 0, .str, .argumentKind 1 false⟩,
    ⟨"Arg2", 1, .str, .argumentKind 2 true⟩],
   none⟩

/-- The token stream of scenario B after the directive name. -/
def scenarioB : List Item := [
  .arg "a", .arg "b",
  .block [("parameter", [.arg "value"]), ("number", [.arg "100"]), ("flag", [])]]

/-- Field list of the `thing3` test type: a matcher field and two
positional strings. -/
def thing3Fields : List StructField := [
  .mk "Matcher" "$matcher" true .moduleMap,
  .mk "Arg1" "$1" true .str,
  .mk "Arg2" "$2,optional" true .str]

/-- Zero value of `thing3`. -/
def thing3Zero : Val := .struct [.moduleMap, .str "", .str ""]

/-- A record with a single untagged boolean block-entry field. -/
def c7Fields : List StructField := [.mk "Flag" "" true .bool]

/-- Zero value for `c7Fields`. -/
def c7Zero : Val := .struct [.bool false]

/-- Schema extracted from `c7Fields`. -/
def c7Info : StructInfoM :=
  ⟨[⟨"Flag", 0, .bool, .blockFieldKind "Flag"⟩], [], none⟩

/-- A record with two untagged boolean block-entry fields. -/
def c1Fields : List StructField := [.mk "Flag" "" true .bool, .mk "Other" "" true .bool]

/-- Zero value for `c1Fields`. -/
def c1Zero : Val := .struct [.bool false, .bool false]

/-- Schema extracted from `c1Fields`. -/
def c1Info : StructInfoM :=
  ⟨[⟨"Flag", 0, .bool, .blockFieldKind "Flag"⟩,
    ⟨"Other", 1, .bool, .blockFieldKind "Other"⟩], [], none⟩

/-- A block whose first line is an erroneous boolean line (recognized
name, trailing token) followed by a well-formed recognized line. -/
def c1Items : List Item := [.block [("Flag", [.arg "extra"]), ("Other", [])]]

/-- Positional fields declared against index order: index 2 first, then
index 1, both required. -/
def c4Fields : List StructField := [.mk "A" "$2" true .str, .mk "B" "$1" true .str]

/-- Zero value for `c4Fields`. -/
def c4Zero : Val := .struct [.str "", .str ""]

/-- A positional field and an indexed block group declaring the same
index 1, in this declaration order. -/
def c5Fields : List StructField := [.mk "A" "$1" true .str, .mk "B" "\x7b1\x7d" true .mapStrStr]

/-- Schema extracted from `c5Fields`: only the brace-index field
survives, so no duplicate is seen. -/
def c5Info : StructInfoM :=
  ⟨[], [⟨"B", 1, .mapStrStr, .blockKind 1 false⟩], none⟩

/-- A required positional field at index 2 declared before an optional
one at index 1. -/
def c6Fields : List StructField := [.mk "A" "$2" true .str, .mk "B" "$1,optional" true .str]

/-- Schema extracted from `c6Fields`: `otherFields` in declaration
order, required before optional. -/
def c6Info : StructInfoM :=
  ⟨[], [⟨"A", 0, .str, .argumentKind 2 false⟩,
        ⟨"B", 1, .str, .argumentKind 1 true⟩], none⟩

/-- Required positional fields at indices 1 and 2. -/
def c8Fields : List StructField := [.mk "Arg1" "$1" true .str, .mk "Arg2" "$2" true .str]

/-- Zero value for `c8Fields`. -/
def c8Zero : Val := .struct [.str "", .str ""]

/-- C1: refuted on the code.  A decode call in which a block-body line
raises an error — its first token names a known block-entry field, so
this is not the tolerated unknown-name skip — yet the whole decode call
returns no error: the line loop of `unmarshalBlock` reads
`if err := parse(); err != nil ... return nil` (source lines 217-221),
so the wrapped unexpected-argument error produced by the line is
discarded and the remaining lines of the block are abandoned, leaving
`Other` unset without any error. -/
theorem c1_block_body_error_silently_discarded :
    extractFields c1Fields = .ok c1Info ∧
    (c1Info.blockFieldNamed "Flag").isSome = true ∧
    parseLineFuel 1 false false c1Info (.struct c1Fields) c1Zero ("Flag", [.arg "extra"]) =
      (c1Zero, some (.wrapped (.unexpectedBlockArgument "Flag"))) ∧
    unmarshal false (.struct c1Fields) c1Zero c1Items = (c1Zero, none) :=
  ⟨rfl, rfl, rfl, rfl⟩

/-- C2: refuted on the code.  Decoding the scenario A stream into the
`thing1` shape fails at walk position 0 instead of succeeding: the
brace-index branch of `extractFields` assigns
`append(info.blockFields, ...)` to `otherFields`, erasing the
previously accumulated positional fields, so the walk routes the first
argument token into the surviving optional map field and value coercion
rejects the map type. -/
theorem c2_scenarioA_fails_instead_of_succeeding :
    unmarshal false (.struct thing1Fields) thing1Zero scenarioA =
      (thing1Zero, some (.errorAt 0 (.unsupportedType .mapStrStr))) := rfl

/-- C3: refuted on the code.  In scenario B the block lines `parameter
value`, `number 100` and `flag` are all skipped: `blockFieldNamed`
matches the first token of a line against the Go field name (`Param`,
`Number`, `Flag`), never against the declared entry name stored in the
field kind, so the decode call succeeds with all three block-entry
fields left at their zero values. -/
theorem c3_scenarioB_entry_names_not_used :
    extractFields thing2Fields = .ok thing2Info ∧
    thing2Info.blockFieldNamed "parameter" = none ∧
    thing2Info.blockFieldNamed "number" = none ∧
    thing2Info.blockFieldNamed "flag" = none ∧
    unmarshal false (.struct thing2Fields) thing2Zero scenarioB =
      (.struct [.str "a", .str "b", .str "", .int 0, .bool false], none) :=
  ⟨rfl, rfl, rfl, rfl, rfl⟩

/-- C4: refuted on the code.  With a record declaring index 2 before
index 1, the walk assigns the first token to the field declared first
(index 2): the sort statement of `extractFields` is applied to
`blockFields` — whose entries all answer index -1 — so `otherFields`
stays in declaration order and walk position `i` selects the i-th
declared entry, not the field with the i-th smallest declared index. -/
theorem c4_walk_order_is_declaration_order :
    unmarshal false (.struct c4Fields) c4Zero [.arg "x", .arg "y"] =
      (.struct [.str "x", .str "y"], none) := rfl

/-- C5: refuted on the code.  A record declaring `$1` and then the
brace-form index 1 carries a duplicate index, yet `extractFields`
succeeds: the brace-index branch overwrites `otherFields` with
`append(info.blockFields, ...)`, dropping the `$1` entry, so the
duplicate-index scan sees index 1 only once. -/
theorem c5_duplicate_index_not_rejected :
    extractFields c5Fields = .ok c5Info ∧
    c5Info.otherFields.map FieldInfoM.index = [1] :=
  ⟨rfl, rfl⟩

/-- C6: refuted on the code.  A required positional field at index 2
declared before an optional one at index 1 violates the index-ordered
suffix rule of the claim, yet `extractFields` succeeds: the
optional-suffix scan runs over `otherFields` in declaration order (the
sort statement touches `blockFields` instead), and in declaration order
the required field comes first. -/
theorem c6_suffix_check_uses_declaration_order :
    extractFields c6Fields = .ok c6Info ∧
    c6Info.otherFields.map FieldInfoM.index = [2, 1] :=
  ⟨rfl, rfl⟩

/-- C7: first half holds, second half refuted on the code.  A bare
`Flag` line sets the boolean field and the decode call succeeds; a
`Flag x` line does make the `parse` closure return the wrapped
unexpected-argument error (source line 200), but the block line loop
replaces that error with a nil return (source line 219), so the decode
call also succeeds, with the field left false.  The line name `Flag` is
a known block-entry name (`blockFieldNamed` resolves it), so this is the
boolean trailing-token error of the claim and not the tolerated
unknown-name skip. -/
theorem c7_bool_trailing_token_error_swallowed :
    unmarshal false (.struct c7Fields) c7Zero [.block [("Flag", [])]] =
      (.struct [.bool true], none) ∧
    extractFields c7Fields = .ok c7Info ∧
    (c7Info.blockFieldNamed "Flag").isSome = true ∧
    parseLineFuel 1 false false c7Info (.struct c7Fields) c7Zero ("Flag", [.arg "x"]) =
      (c7Zero, some (.wrapped (.unexpectedBlockArgument "Flag"))) ∧
    unmarshal false (.struct c7Fields) c7Zero [.block [("Flag", [.arg "x"])]] =
      (c7Zero, none) :=
  ⟨rfl, rfl, rfl, rfl, rfl⟩

/-- C8 counterexample: with required positional fields declared at
indices 1 and 2 and a single argument token supplied, the decode call
fails with the wrapped missing-required error reported at 1 — the walk
position of the first unfilled field — and not at the 2 stated by the
claim. -/
theorem c8_counterexample :
    (unmarshal false (.struct c8Fields) c8Zero [.arg "x"]).2 =
      some (.wrapped (.missingRequired 1)) ∧
    (unmarshal false (.struct c8Fields) c8Zero [.arg "x"]).2 ≠
      some (.wrapped (.missingRequired 2)) := by
  refine ⟨rfl, ?_⟩
  intro h
  rw [show (unmarshal false (.struct c8Fields) c8Zero [.arg "x"]).2 =
        some (Err.wrapped (Err.missingRequired 1)) from rfl] at h
  simp only [Option.some.injEq, Err.wrapped.injEq, Err.missingRequired.injEq] at h
  omega

/-- C8 amended: for the record declaring required positional fields at
indices 1 and 2, decoding an input that supplies only one argument token
and no block fails with a missing-required-field error whose reported
number is 1, the zero-based walk position of the first unfilled field in
the merged field list, rather than the declared index 2. -/
theorem c8_amended_missing_required_reports_walk_position :
    unmarshal false (.struct c8Fields) c8Zero [.arg "x"] =
      (.struct [.str "x", .str ""], some (.wrapped (.missingRequired 1))) := rfl

/-- C9: for every record type declaring a matcher field, decoding
through the entry point without matcher-token support (`http = false`,
the plain `Unmarshal` path, where the dispenser carries no
`httpcaddyfile.Helper`) fails with an error, returns the target value
unchanged, and does so uniformly in the token stream — no argument or
block is consumed and no field of the record is modified. -/
theorem c9_matcher_without_http_fails_immediately
    (fields : List StructField) (v : Val) (items : List Item)
    (hm : fields.any isMatcherField = true) :
    (unmarshal false (.struct fields) v items).1 = v ∧
    ((unmarshal false (.struct fields) v items).2).isSome = true := by
  unfold unmarshal fuelFor unmarshalFuel
  cases hE : extractFields fields with
  | error e => simp [hE]
  | ok info =>
      have hms := extractFields_matcher hE hm
      simp [hE, hms]

/-- Witness for C9 at the `thing3` test type with one argument token. -/
theorem c9_witness :
    (thing3Fields.any isMatcherField = true) ∧
    ((unmarshal false (.struct thing3Fields) thing3Zero [.arg "a"]).1 = thing3Zero ∧
     ((unmarshal false (.struct thing3Fields) thing3Zero [.arg "a"]).2).isSome = true) :=
  ⟨by decide,
   c9_matcher_without_http_fails_immediately thing3Fields thing3Zero [.arg "a"] (by decide)⟩

/-- C10: for every record type declaring a matcher field whose schema
extraction succeeds, decoding with matcher-token support supplied
(`http = true`, the `UnmarshalForHTTP` path) still fails, with the
expected-module-map error: the assignability check at source line 77
tests the whole record type against `caddy.ModuleMap`, and a struct type
is never assignable to that map type, so the declared matcher field is
never written (the error carries the unchanged record value). -/
theorem c10_matcher_type_check_hits_whole_record
    (fields : List StructField) (v : Val) (items : List Item)
    (hm : fields.any isMatcherField = true)
    (hok : exceptOk (extractFields fields) = true) :
    unmarshal true (.struct fields) v items = (v, some .matcherNotModuleMap) := by
  cases hE : extractFields fields with
  | error e => rw [hE] at hok; simp [exceptOk] at hok
  | ok info =>
      have hms := extractFields_matcher hE hm
      unfold unmarshal fuelFor unmarshalFuel
      simp [hE, hms]

/-- Witness for C10 at the `thing3` test type with one argument token. -/
theorem c10_witness :
    (thing3Fields.any isMatcherField = true) ∧
    (exceptOk (extractFields thing3Fields) = true) ∧
    unmarshal true (.struct thing3Fields) thing3Zero [.arg "a"] =
      (thing3Zero, some .matcherNotModuleMap) :=
  ⟨by decide, by decide,
   c10_matcher_type_check_hits_whole_record thing3Fields thing3Zero [.arg "a"]
     (by decide) (by decide)⟩

end Caddyunmarshal
